import Mathlib

/-!
Shallow embedding of `blackjack_macros/src/blackjack_lua_module.rs`, the
compile-time generator that wraps annotated Rust functions for the mlua
runtime, together with an operational model of the code it generates.
-/

namespace Blackjack

/-! Syntax model: the fragments of `syn` types that the generator inspects. -/

mutual

/-- Model of `syn::Type`, restricted to the shapes the generator
distinguishes: references (with mutability and pointee), paths (segment
idents with their generic arguments), the unit type `()` emitted for a
missing return type, and an opaque catch-all for every other type shape. -/
inductive Ty where
  | reference (mutability : Bool) (elem : Ty) : Ty
  | path (segments : List PathSeg) : Ty
  | unit : Ty
  | other (repr : String) : Ty

/-- Model of `syn::PathSegment`: an identifier plus its path arguments. -/
inductive PathSeg where
  | mk (ident : String) (arguments : PathArguments) : PathSeg

/-- Model of `syn::PathArguments`. -/
inductive PathArguments where
  | noArgs : PathArguments
  | angleBracketed (args : List GenArg) : PathArguments
  | parenthesized : PathArguments

/-- Model of `syn::GenericArgument`: only `Type` arguments matter to the
generator; lifetimes and const arguments are kept so that the first
angle-bracketed argument can fail to be a type. -/
inductive GenArg where
  | lifetime (name : String) : GenArg
  | tyArg (t : Ty) : GenArg
  | constArg (repr : String) : GenArg

end

/-- Model of `syn::Pat` as matched at `analyze_lua_fn`: an identifier
pattern, or any other pattern shape (tuple, wildcard, destructuring...). -/
inductive Pat where
  | ident (name : String)
  | other (repr : String)

/-- Model of `syn::FnArg`: a `self` receiver or a typed `pat: ty` argument. -/
inductive FnArg where
  | receiver
  | typed (pat : Pat) (ty : Ty)

/-- Model of an attribute value expression; `assume_string_literal` accepts
exactly the string-literal case. -/
inductive AttrExpr where
  | strLit (s : String)
  | otherExpr (repr : String)

/-- Model of `syn::Attribute`: its path ident (when the path is a single
ident) and its argument payload, already split into `key = value` pairs as
`comma_separated_fn` produces them. -/
structure Attribute where
  pathIdent : Option String
  args : List (String × AttrExpr)

/-- The parts of `syn::Signature` that `analyze_lua_fn` reads. -/
structure FnSignature where
  ident : String
  generics_params : List String
  asyncness : Bool
  inputs : List FnArg
  output : Option Ty

/-- Model of `syn::ItemFn`: attributes plus signature (the body is never
inspected by the generator). -/
structure ItemFn where
  attrs : List Attribute
  sig : FnSignature

/-- Model of `syn::Item` as matched in `blackjack_lua_module2`: functions,
impl blocks (which hit a `todo!()`), and everything else (ignored). -/
inductive Item where
  | fn (f : ItemFn)
  | implBlock (repr : String)
  | other (repr : String)

/-- Model of `syn::ItemMod`: visibility, name, optional inline content. -/
structure ItemMod where
  vis : String
  ident : String
  content : Option (List Item)

/-! Generation-time results: `syn::Result` errors versus process aborts. -/

/-- A generation-time failure: either a `syn::Error` (descriptive,
span-carrying) or a process abort (`panic!`, `todo!`, `.unwrap()` on `Err`). -/
inductive GenError where
  | synError (msg : String)
  | panicked (msg : String)
deriving DecidableEq

/-- Shorthand for generation-time computations. -/
abbrev GenResult (α : Type) : Type := Except GenError α

/-! Annotation parsing: `LuaFnAttrs` and its `Parse` impl. -/

/-- `LuaFnAttrs`: configuration extracted from a `#[lua(...)]` attribute.
The only recognized key is `under`. -/
structure LuaFnAttrs where
  under : Option String

/-- Modelled from the spec: `ExprUtils::assume_string_literal` lives in the
crate's `utils` module, which is not part of the provided sources. Per the
spec's annotation-parser contract, extracting the string succeeds exactly
when the value expression is a string literal and otherwise fails with the
supplied message. -/
def assume_string_literal (e : AttrExpr) (msg : String) : Except String String :=
  match e with
  | AttrExpr.strLit s => Except.ok s
  | AttrExpr.otherExpr _ => Except.error msg

/-- The loop body of `LuaFnAttrs::parse`: fold the `key = value` pairs over
the default config, setting `under` whenever the key is `under` and failing
when its value is not a string literal. -/
def parse_lua_fn_attrs_loop (acc : LuaFnAttrs) :
    List (String × AttrExpr) → Except String LuaFnAttrs
  | [] => Except.ok acc
  | (key, val) :: rest =>
    if key = "under" then
      match assume_string_literal val "Value for 'under' must be a string" with
      | Except.error e => Except.error e
      | Except.ok s => parse_lua_fn_attrs_loop { under := some s } rest
    else
      parse_lua_fn_attrs_loop acc rest

/-- `LuaFnAttrs::parse`: start from `LuaFnAttrs::default()` and process the
comma-separated `key = value` properties in order. -/
def parse_lua_fn_attrs (props : List (String × AttrExpr)) : Except String LuaFnAttrs :=
  parse_lua_fn_attrs_loop { under := none } props

/-! Return-type analysis. -/

/-- `unwrap_result`: if the type is a path whose first segment is named
`Result` with angle-bracketed arguments whose first argument is a type,
return that type; otherwise return `none`. -/
def unwrap_result (typ : Ty) : Option Ty :=
  match typ with
  | Ty.path (PathSeg.mk id args :: _) =>
    if id = "Result" then
      match args with
      | PathArguments.angleBracketed (GenArg.tyArg t :: _) => some t
      | _ => none
    else none
  | _ => none

/-- The return-shape match of `analyze_lua_fn` (lines 159-165): a missing
return type becomes `()` and non-fallible; a `Result` return type is
unwrapped to its success payload and marked fallible; any other return type
is kept verbatim and marked non-fallible. -/
def ret_shape (output : Option Ty) : Ty × Bool :=
  match output with
  | none => (Ty.unit, false)
  | some t =>
    match unwrap_result t with
    | some inner => (inner, true)
    | none => (t, false)

/-! Parameter classification. -/

/-- `ArgKind` from `analyze_lua_fn`. -/
inductive ArgKind where
  | owned
  | ref
  | refMut
deriving DecidableEq

/-- `WrapperArg` from `analyze_lua_fn`. -/
structure WrapperArg where
  kind : ArgKind
  typ : Ty
  name : String

/-- One iteration of the argument loop of `analyze_lua_fn`: a receiver is a
descriptive error, a non-identifier pattern hits `todo!()`, a reference type
is classified `Ref`/`RefMut` with its pointee recorded, and any other type
is classified `Owned` and kept verbatim. -/
def classify_arg (arg : FnArg) : GenResult WrapperArg :=
  match arg with
  | FnArg.receiver => Except.error (GenError.synError "Can't use self here.")
  | FnArg.typed pat ty =>
    match pat with
    | Pat.ident name =>
      match ty with
      | Ty.reference mutability elem =>
        Except.ok
          { kind := if mutability then ArgKind.refMut else ArgKind.ref,
            typ := elem, name := name }
      | t => Except.ok { kind := ArgKind.owned, typ := t, name := name }
    | Pat.other _ => Except.error (GenError.panicked "not yet implemented")

/-- The whole argument loop: classify each input in order, stopping at the
first failure, accumulating `wrapper_fn_args` in declaration order. -/
def classify_args : List FnArg → GenResult (List WrapperArg)
  | [] => Except.ok []
  | arg :: rest =>
    match classify_arg arg with
    | Except.error e => Except.error e
    | Except.ok w =>
      match classify_args rest with
      | Except.error e => Except.error e
      | Except.ok ws => Except.ok (w :: ws)

/-! The generated registration item, modelled structurally: each field holds
exactly what the corresponding `quote!` interpolation in lines 127-198
splices into the output token stream. -/

/-- A wrapper-signature slot type: the original native type for `Owned`
arguments, `mlua::AnyUserData` for `Ref`/`RefMut` arguments. -/
inductive WrapperTy where
  | native (t : Ty)
  | anyUserData

/-- One generated borrow statement: `let name = name.borrow::<typ>()?;` or
`let mut name = name.borrow_mut::<typ>()?;`. -/
inductive BodyStmt where
  | borrowShared (name : String) (typ : Ty)
  | borrowMut (name : String) (typ : Ty)

/-- One argument of the generated forwarding call: `name`, `&name`, or
`&mut name`. -/
inductive InvokeArg where
  | byValue (name : String)
  | byRef (name : String)
  | byRefMut (name : String)

/-- The generated `__inner` function: its signature tuple, the borrow
preamble, the forwarding-call arguments, and the result conversion shape. -/
structure InnerFn where
  arg_names : List String
  arg_types : List WrapperTy
  borrows : List BodyStmt
  invoke_args : List InvokeArg
  ret_typ : Ty
  ret_is_result : Bool
  callee : String

/-- The generated registration function: the inner wrapper plus the table
lookup (`lua.globals().get::<_, mlua::Table>("Ops").unwrap()`) and the
`table.set(original_fn_name, ...)` insertion. -/
structure RegisterFnItem where
  inner : InnerFn
  table_name : String
  key : String

/-- `LuaFnDef`: the registration function's identifier and its item. -/
structure LuaFnDef where
  register_fn_ident : String
  register_fn_item : RegisterFnItem

/-- Mapping from a classified argument to its wrapper-signature slot type
(the `types` iterator at lines 128-131). -/
def wrapper_slot_ty (arg : WrapperArg) : WrapperTy :=
  match arg.kind with
  | ArgKind.owned => WrapperTy.native arg.typ
  | ArgKind.ref => WrapperTy.anyUserData
  | ArgKind.refMut => WrapperTy.anyUserData

/-- Mapping from a classified argument to its borrow statement, if any (the
`borrows` iterator at lines 137-149): `Owned` arguments produce none. -/
def borrow_stmt (arg : WrapperArg) : Option BodyStmt :=
  match arg.kind with
  | ArgKind.owned => none
  | ArgKind.ref => some (BodyStmt.borrowShared arg.name arg.typ)
  | ArgKind.refMut => some (BodyStmt.borrowMut arg.name arg.typ)

/-- Mapping from a classified argument to its forwarding-call argument (the
`invoke_args` iterator at lines 151-157). -/
def invoke_arg (arg : WrapperArg) : InvokeArg :=
  match arg.kind with
  | ArgKind.owned => InvokeArg.byValue arg.name
  | ArgKind.ref => InvokeArg.byRef arg.name
  | ArgKind.refMut => InvokeArg.byRefMut arg.name

/-- Assembly of the `Ok(LuaFnDef ...)` value at lines 123-200 from the
classified arguments: note that the destination table name in the generated
code is the literal `"Ops"` and that `attrs.under` is not consulted. -/
def mk_lua_fn_def (item_fn : ItemFn) (wrapper_fn_args : List WrapperArg) : LuaFnDef :=
  { register_fn_ident := "__blackjack_export_" ++ item_fn.sig.ident ++ "_to_lua",
    register_fn_item :=
      { inner :=
          { arg_names := wrapper_fn_args.map (fun a => a.name),
            arg_types := wrapper_fn_args.map wrapper_slot_ty,
            borrows := wrapper_fn_args.filterMap borrow_stmt,
            invoke_args := wrapper_fn_args.map invoke_arg,
            ret_typ := (ret_shape item_fn.sig.output).1,
            ret_is_result := (ret_shape item_fn.sig.output).2,
            callee := item_fn.sig.ident },
        table_name := "Ops",
        key := item_fn.sig.ident } }

/-- `analyze_lua_fn`: reject generic and async declarations up front, then
classify every argument (rejecting receivers, aborting on non-identifier
patterns), then build the generated registration item. -/
def analyze_lua_fn (item_fn : ItemFn) (attrs : LuaFnAttrs) : GenResult LuaFnDef :=
  if item_fn.sig.generics_params.length > 0 then
    Except.error
      (GenError.synError "Functions exported to lua can't have generic parameters.")
  else if item_fn.sig.asyncness then
    Except.error (GenError.synError "Functions exported to lua can't be marked async.")
  else
    match classify_args item_fn.sig.inputs with
    | Except.error e => Except.error e
    | Except.ok wrapper_fn_args => Except.ok (mk_lua_fn_def item_fn wrapper_fn_args)

/-! Attribute collection: `collect_lua_attr` (lines 203-224). -/

/-- The scanning loop of `collect_lua_attr`, carrying the running index of
`enumerate`: for each attribute whose path ident is `lua`, parse its payload
(`attr.parse_args().unwrap()` aborts on a parse failure), recording the
parsed config and the attribute's index. -/
def scan_lua_attrs : Nat → List Attribute → GenResult (List LuaFnAttrs × List Nat)
  | _, [] => Except.ok ([], [])
  | i, attr :: rest =>
    if attr.pathIdent = some "lua" then
      match parse_lua_fn_attrs attr.args with
      | Except.error e => Except.error (GenError.panicked e)
      | Except.ok la =>
        match scan_lua_attrs (i + 1) rest with
        | Except.error e => Except.error e
        | Except.ok (ls, idxs) => Except.ok (la :: ls, i :: idxs)
    else scan_lua_attrs (i + 1) rest

/-- `Vec::remove(i)`: remove the element at index `i`, shifting the tail
left; aborts when the index is out of bounds. -/
def vec_remove (l : List Attribute) (i : Nat) : GenResult (List Attribute) :=
  if i < l.length then Except.ok (l.eraseIdx i) else
    Except.error (GenError.panicked "index out of bounds")

/-- The removal loop of `collect_lua_attr`: apply `Vec::remove` for each
recorded index, in collection order, against the already-shrunk vector. -/
def remove_indices : List Attribute → List Nat → GenResult (List Attribute)
  | attrs, [] => Except.ok attrs
  | attrs, i :: rest =>
    match vec_remove attrs i with
    | Except.error e => Except.error e
    | Except.ok attrs2 => remove_indices attrs2 rest

/-- `collect_lua_attr`: scan and parse the `lua` attributes, remove them
from the attribute vector, abort when more than one was found, and return
the (possibly) remaining single config together with the new vector. -/
def collect_lua_attr (attrs : List Attribute) :
    GenResult (List Attribute × Option LuaFnAttrs) :=
  match scan_lua_attrs 0 attrs with
  | Except.error e => Except.error e
  | Except.ok (lua_attrs, to_remove) =>
    match remove_indices attrs to_remove with
    | Except.error e => Except.error e
    | Except.ok attrs2 =>
      if lua_attrs.length > 1 then
        Except.error
          (GenError.panicked "Only one #[lua(...)] annotation is supported per function.")
      else
        Except.ok (attrs2, lua_attrs.head?)

/-- Number of attributes whose path ident is `lua`. -/
def count_lua_attrs : List Attribute → Nat
  | [] => 0
  | attr :: rest =>
    (if attr.pathIdent = some "lua" then 1 else 0) + count_lua_attrs rest

/-! The module assembler: `blackjack_lua_module2` (lines 226-270). -/

/-- `ModuleOutput`: the emitted module, holding the original items (with
their `lua` attributes stripped) and the generated `LuaFnDef`s; the
aggregate `__blackjack_register_lua_fns` body is derived from the latter. -/
structure ModuleOutput where
  vis : String
  mod_name : String
  original_items : List Item
  new_items : List LuaFnDef

/-- The item loop of `blackjack_lua_module2`: functions have their `lua`
attribute collected (mutating their attribute list) and, when one is
present, are analyzed into a `LuaFnDef`; impl blocks hit `todo!()`; other
items are ignored. Errors from `analyze_lua_fn` propagate via `?`. -/
def process_items : List Item → GenResult (List Item × List LuaFnDef)
  | [] => Except.ok ([], [])
  | Item.fn f :: rest =>
    match collect_lua_attr f.attrs with
    | Except.error e => Except.error e
    | Except.ok (attrs2, luaAttr) =>
      match luaAttr with
      | some la =>
        match analyze_lua_fn { f with attrs := attrs2 } la with
        | Except.error e => Except.error e
        | Except.ok d =>
          match process_items rest with
          | Except.error e => Except.error e
          | Except.ok (items2, ds2) =>
            Except.ok (Item.fn { f with attrs := attrs2 } :: items2, d :: ds2)
      | none =>
        match process_items rest with
        | Except.error e => Except.error e
        | Except.ok (items2, ds2) =>
          Except.ok (Item.fn { f with attrs := attrs2 } :: items2, ds2)
  | Item.implBlock s :: _ => Except.error (GenError.panicked ("not yet implemented: " ++ s))
  | Item.other s :: rest =>
    match process_items rest with
    | Except.error e => Except.error e
    | Except.ok (items2, ds2) => Except.ok (Item.other s :: items2, ds2)

/-- The aggregate registration body: one call per generated wrapper, in
declaration order (`global_register_fn_calls`, lines 249-251). -/
def global_register_fn_calls (new_items : List LuaFnDef) : List String :=
  new_items.map (fun d => d.register_fn_ident)

/-- `blackjack_lua_module2`: aborts on a module without inline content;
otherwise processes every item and re-emits the module with the original
items followed by the generated registration items. -/
def blackjack_lua_module2 (module : ItemMod) : GenResult ModuleOutput :=
  match module.content with
  | none => Except.error (GenError.panicked "This macro only supports inline modules")
  | some items =>
    match process_items items with
    | Except.error e => Except.error e
    | Except.ok (items2, new_items) =>
      Except.ok
        { vis := module.vis, mod_name := module.ident,
          original_items := items2, new_items := new_items }

/-! Operational model of the generated code at runtime. -/

/-- A dynamically typed value crossing the mlua boundary. -/
structure DynValue where
  repr : String
deriving DecidableEq

/-- The native error payload of a fallible wrapped function; only its
`Debug` rendering is observable at the boundary. -/
structure NativeErr where
  debugRepr : String
deriving DecidableEq

/-- The rendering `format "..."` applies to a native error value: its
`Debug` representation. -/
def render_debug (e : NativeErr) : String := e.debugRepr

/-- The mlua error values the generated wrapper can surface: the
`RuntimeError` it builds for fallible failures, and the borrow-resolution
failures `AnyUserData::borrow` / `borrow_mut` can return. -/
inductive MluaError where
  | runtimeError (msg : String)
  | userDataTypeMismatch
  | userDataBorrowError
  | userDataBorrowMutError
deriving DecidableEq

/-- The outcome of the forwarding call to the original native function: a
plain value for a non-fallible callee, or a `Result` for a fallible one. -/
inductive NativeCall where
  | plain (v : DynValue)
  | fallible (r : Except NativeErr DynValue)

/-- The generated result conversion (`call_fn_and_map_result`, lines
167-180): a plain value is wrapped in `Ok`; a fallible `Ok(val)` is
forwarded; a fallible `Err(err)` becomes
`mlua::Error::RuntimeError(format ...)` with the error's rendering. -/
def eval_call_fn_and_map_result (call : NativeCall) : Except MluaError DynValue :=
  match call with
  | NativeCall.plain v => Except.ok v
  | NativeCall.fallible (Except.ok val) => Except.ok val
  | NativeCall.fallible (Except.error err) =>
    Except.error (MluaError.runtimeError (render_debug err))

/-- Execution of the generated borrow preamble, statement by statement: the
resolution outcome of the `i`-th borrow is supplied by the runtime oracle
`resolve` (mlua arbitrates handle typing and aliasing); the first failing
`?` short-circuits with its error. -/
def run_borrows (resolve : Nat → Option MluaError) :
    Nat → List BodyStmt → Option MluaError
  | _, [] => none
  | i, _ :: rest =>
    match resolve i with
    | some e => some e
    | none => run_borrows resolve (i + 1) rest

/-- Execution of the generated `__inner` body: the borrow statements run
first, in order, and only when all of them succeed does the forwarding call
execute. The boolean records whether the original function was invoked. -/
def run_inner (inner : InnerFn) (resolve : Nat → Option MluaError)
    (call : NativeCall) : Except MluaError DynValue × Bool :=
  match run_borrows resolve 0 inner.borrows with
  | some e => (Except.error e, false)
  | none => (eval_call_fn_and_map_result call, true)

/-! Runtime registration model. -/

/-- A Lua table, as a key-to-callable association (the callable being the
generated inner wrapper). -/
abbrev LuaTable : Type := List (String × InnerFn)

/-- The Lua runtime's global namespace: named tables. -/
structure LuaRuntime where
  globals : List (String × LuaTable)

/-- `lua.globals().get::<_, mlua::Table>(name)`: `none` when no table of
that name exists. -/
def globals_get : List (String × LuaTable) → String → Option LuaTable
  | [], _ => none
  | (k, t) :: rest, name => if k = name then some t else globals_get rest name

/-- Write a named table back into the globals. -/
def globals_set : List (String × LuaTable) → String → LuaTable → List (String × LuaTable)
  | [], name, tbl => [(name, tbl)]
  | (k, t) :: rest, name, tbl =>
    if k = name then (name, tbl) :: rest else (k, t) :: globals_set rest name tbl

/-- `table.set(key, value)`: insert, overwriting any existing binding. -/
def table_set (tbl : LuaTable) (key : String) (v : InnerFn) : LuaTable :=
  match tbl with
  | [] => [(key, v)]
  | (k, w) :: rest => if k = key then (key, v) :: rest else (k, w) :: table_set rest key v

/-- Execution of a generated registration function against a runtime state:
look up the destination table (`.unwrap()` aborts — `none` — when it is
missing, per the source's TODO comment at line 190), then set the entry
keyed by the original function's name to the wrapper. -/
def run_register_fn (d : LuaFnDef) (lua : LuaRuntime) : Option LuaRuntime :=
  match globals_get lua.globals d.register_fn_item.table_name with
  | none => none
  | some tbl =>
    some
      { globals :=
          globals_set lua.globals d.register_fn_item.table_name
            (table_set tbl d.register_fn_item.key d.register_fn_item.inner) }

/-! Concrete fixtures, mirroring the crate's own test module (lines
278-297): `pub fn test_exported_fn(mesh: &mut HalfEdgeMesh) -> Result<i32>`
annotated with `under = "Ops"`. -/

/-- The type `HalfEdgeMesh`. -/
def meshTy : Ty := Ty.path [PathSeg.mk "HalfEdgeMesh" PathArguments.noArgs]

/-- The type `i32`. -/
def i32Ty : Ty := Ty.path [PathSeg.mk "i32" PathArguments.noArgs]

/-- The type `Result<i32>` (the crate's alias takes a single argument). -/
def resultI32Ty : Ty :=
  Ty.path [PathSeg.mk "Result" (PathArguments.angleBracketed [GenArg.tyArg i32Ty])]

/-- The test function's signature: one `&mut HalfEdgeMesh` parameter named
`mesh`, returning `Result<i32>`, no generics, not async. -/
def test_exported_fn : ItemFn :=
  { attrs := [],
    sig :=
      { ident := "test_exported_fn", generics_params := [], asyncness := false,
        inputs := [FnArg.typed (Pat.ident "mesh") (Ty.reference true meshTy)],
        output := some resultI32Ty } }

/-- The annotation config `under = "Ops"`. -/
def opsAttrs : LuaFnAttrs := { under := some "Ops" }

/-- The annotation config `under = "Foo"`: a destination namespace different
from the hardcoded table name. -/
def fooAttrs : LuaFnAttrs := { under := some "Foo" }

/-- The `LuaFnDef` that `analyze_lua_fn` produces for `test_exported_fn`. -/
def test_def : LuaFnDef :=
  { register_fn_ident := "__blackjack_export_test_exported_fn_to_lua",
    register_fn_item :=
      { inner :=
          { arg_names := ["mesh"],
            arg_types := [WrapperTy.anyUserData],
            borrows := [BodyStmt.borrowMut "mesh" meshTy],
            invoke_args := [InvokeArg.byRefMut "mesh"],
            ret_typ := i32Ty,
            ret_is_result := true,
            callee := "test_exported_fn" },
        table_name := "Ops",
        key := "test_exported_fn" } }

/-- A borrow oracle under which every handle resolution fails with a
mutable-borrow conflict. -/
def resolveFailing : Nat → Option MluaError :=
  fun _ => some MluaError.userDataBorrowMutError

/-- A borrow oracle under which every handle resolution succeeds. -/
def resolveAllOk : Nat → Option MluaError := fun _ => none

/-- A successful fallible native call returning the payload `42`. -/
def fallibleOkCall : NativeCall := NativeCall.fallible (Except.ok { repr := "42" })

/-- A concrete native failure value. -/
def faceErr : NativeErr := { debugRepr := "FaceNotFound" }

/-- A declaration with one generic parameter (for the rejection claims). -/
def genericFn : ItemFn :=
  { attrs := [],
    sig :=
      { ident := "generic_fn", generics_params := ["T"], asyncness := false,
        inputs := [], output := none } }

/-- A declaration whose only parameter carries a wildcard pattern. -/
def wildcardFn : ItemFn :=
  { attrs := [],
    sig :=
      { ident := "wild_fn", generics_params := [], asyncness := false,
        inputs := [FnArg.typed (Pat.other "_") i32Ty], output := none } }

/-- The raw attribute `#[lua(under = "Ops")]`. -/
def luaOpsAttribute : Attribute :=
  { pathIdent := some "lua", args := [("under", AttrExpr.strLit "Ops")] }

/-- An attribute vector carrying the `lua` annotation twice. -/
def luaAttrTwice : List Attribute := [luaOpsAttribute, luaOpsAttribute]

example : analyze_lua_fn test_exported_fn opsAttrs = Except.ok test_def := rfl

example : run_register_fn test_def { globals := [] } = none := rfl

example : run_register_fn test_def { globals := [("Foo", [])] } = none := rfl

example : collect_lua_attr luaAttrTwice =
    Except.error (GenError.panicked "index out of bounds") := rfl

example : collect_lua_attr [luaOpsAttribute] = Except.ok ([], some opsAttrs) := rfl

/-! Helper lemmas. -/

/-- If some borrow in the preamble fails to resolve, running the preamble
stops at a failure. -/
theorem run_borrows_of_fail (resolve : Nat → Option MluaError) :
    ∀ (l : List BodyStmt) (start i : Nat), i < l.length → resolve (start + i) ≠ none →
      ∃ e, run_borrows resolve start l = some e := by
  intro l
  induction l with
  | nil => intro start i hi _; simp at hi
  | cons b rest ih =>
    intro start i hi hne
    cases hres : resolve start with
    | some e => exact ⟨e, by simp [run_borrows, hres]⟩
    | none =>
      cases i with
      | zero =>
        rw [Nat.add_zero] at hne
        exact absurd hres hne
      | succ j =>
        have hj : j < rest.length := by simpa using hi
        have harith : start + (j + 1) = (start + 1) + j := by omega
        rw [harith] at hne
        obtain ⟨e, he⟩ := ih (start + 1) j hj hne
        exact ⟨e, by simp [run_borrows, hres, he]⟩

/-- If the whole preamble resolves, every borrow in it resolved. -/
theorem resolve_of_run_borrows_none (resolve : Nat → Option MluaError) :
    ∀ (l : List BodyStmt) (start : Nat), run_borrows resolve start l = none →
      ∀ i, i < l.length → resolve (start + i) = none := by
  intro l
  induction l with
  | nil => intro start _ i hi; simp at hi
  | cons b rest ih =>
    intro start h i hi
    cases hres : resolve start with
    | some e => simp [run_borrows, hres] at h
    | none =>
      simp only [run_borrows, hres] at h
      cases i with
      | zero => rw [Nat.add_zero]; exact hres
      | succ j =>
        have hj : j < rest.length := by simpa using hi
        have harith : start + (j + 1) = (start + 1) + j := by omega
        rw [harith]
        exact ih (start + 1) h j hj

/-- If every borrow in the preamble resolves, the whole preamble resolves. -/
theorem run_borrows_all_ok (resolve : Nat → Option MluaError) :
    ∀ (l : List BodyStmt) (start : Nat),
      (∀ i, i < l.length → resolve (start + i) = none) →
      run_borrows resolve start l = none := by
  intro l
  induction l with
  | nil => intro start _; rfl
  | cons b rest ih =>
    intro start h
    have h0 : resolve start = none := by simpa using h 0 (by simp)
    have hrest : ∀ i, i < rest.length → resolve ((start + 1) + i) = none := by
      intro i hi
      have harith : (start + 1) + i = start + (i + 1) := by omega
      rw [harith]
      exact h (i + 1) (by simpa using hi)
    simp [run_borrows, h0, ih (start + 1) hrest]

/-! Claim theorems. -/

/-- Claim C3: in every generated wrapper body, the handle resolutions of
the borrow preamble all execute before the forwarding call: if any
resolution fails, the wrapper returns a runtime-level mlua error and the
original function is never invoked; conversely, whenever the original
function is invoked, every resolution succeeded. -/
theorem borrows_resolve_before_forwarding_call (f : ItemFn) (a : LuaFnAttrs)
    (d : LuaFnDef) (h : analyze_lua_fn f a = Except.ok d)
    (resolve : Nat → Option MluaError) (call : NativeCall) :
    ((∃ i, i < d.register_fn_item.inner.borrows.length ∧ resolve i ≠ none) →
      ∃ e, run_inner d.register_fn_item.inner resolve call = (Except.error e, false)) ∧
    ((run_inner d.register_fn_item.inner resolve call).2 = true →
      ∀ i, i < d.register_fn_item.inner.borrows.length → resolve i = none) := by
  constructor
  · rintro ⟨i, hi, hne⟩
    obtain ⟨e, he⟩ :=
      run_borrows_of_fail resolve d.register_fn_item.inner.borrows 0 i hi
        (by simpa using hne)
    exact ⟨e, by simp [run_inner, he]⟩
  · intro hinv i hi
    cases hb : run_borrows resolve 0 d.register_fn_item.inner.borrows with
    | some e => simp [run_inner, hb] at hinv
    | none =>
      have := resolve_of_run_borrows_none resolve d.register_fn_item.inner.borrows 0 hb i hi
      simpa using this

/-- Claim C3 witness: for the generated wrapper of the crate's test
function, a failing borrow makes the call return an error with the original
function not invoked. -/
theorem borrows_resolve_before_forwarding_call_witness :
    analyze_lua_fn test_exported_fn opsAttrs = Except.ok test_def ∧
    ∃ e, run_inner test_def.register_fn_item.inner resolveFailing fallibleOkCall
        = (Except.error e, false) :=
  ⟨rfl,
    (borrows_resolve_before_forwarding_call test_exported_fn opsAttrs test_def rfl
        resolveFailing fallibleOkCall).1
      ⟨0, by decide, by simp [resolveFailing]⟩⟩

/-- Claim C8: for every generated wrapper with a fallible return shape,
once the borrow preamble succeeds, a native failure is returned as an mlua
`RuntimeError` whose message is exactly the failure's `Debug` rendering,
and a native success is returned as the unwrapped payload. -/
theorem fallible_result_conversion (f : ItemFn) (a : LuaFnAttrs) (d : LuaFnDef)
    (h : analyze_lua_fn f a = Except.ok d)
    (hfall : d.register_fn_item.inner.ret_is_result = true)
    (resolve : Nat → Option MluaError)
    (hok : ∀ i, i < d.register_fn_item.inner.borrows.length → resolve i = none) :
    (∀ e : NativeErr,
      run_inner d.register_fn_item.inner resolve (NativeCall.fallible (Except.error e))
        = (Except.error (MluaError.runtimeError (render_debug e)), true)) ∧
    (∀ v : DynValue,
      run_inner d.register_fn_item.inner resolve (NativeCall.fallible (Except.ok v))
        = (Except.ok v, true)) := by
  have hnone : run_borrows resolve 0 d.register_fn_item.inner.borrows = none :=
    run_borrows_all_ok resolve d.register_fn_item.inner.borrows 0
      (by intro i hi; simpa using hok i hi)
  constructor
  · intro e; simp [run_inner, hnone, eval_call_fn_and_map_result]
  · intro v; simp [run_inner, hnone, eval_call_fn_and_map_result]

/-- Claim C8 witness: the test function's wrapper maps the failure
rendered `FaceNotFound` to a `RuntimeError` with that message, and maps a
success to its payload. -/
theorem fallible_result_conversion_witness :
    run_inner test_def.register_fn_item.inner resolveAllOk
        (NativeCall.fallible (Except.error faceErr))
      = (Except.error (MluaError.runtimeError "FaceNotFound"), true) ∧
    run_inner test_def.register_fn_item.inner resolveAllOk
        (NativeCall.fallible (Except.ok { repr := "42" }))
      = (Except.ok { repr := "42" }, true) :=
  ⟨(fallible_result_conversion test_exported_fn opsAttrs test_def rfl rfl
      resolveAllOk (fun _ _ => rfl)).1 faceErr,
   (fallible_result_conversion test_exported_fn opsAttrs test_def rfl rfl
      resolveAllOk (fun _ _ => rfl)).2 { repr := "42" }⟩

/-- A successful run of the argument loop classifies each input pointwise. -/
theorem classify_args_forall2 :
    ∀ (inputs : List FnArg) (ws : List WrapperArg),
      classify_args inputs = Except.ok ws →
      List.Forall₂ (fun input w => classify_arg input = Except.ok w) inputs ws := by
  intro inputs
  induction inputs with
  | nil =>
    intro ws h
    simp only [classify_args] at h
    cases h
    exact List.Forall₂.nil
  | cons a rest ih =>
    intro ws h
    simp only [classify_args] at h
    cases ha : classify_arg a with
    | error e => rw [ha] at h; cases h
    | ok w =>
      rw [ha] at h
      cases hr : classify_args rest with
      | error e => rw [hr] at h; cases h
      | ok ws2 =>
        rw [hr] at h
        cases h
        exact List.Forall₂.cons ha (ih ws2 hr)

/-- A successful analysis decomposes into a successful classification of
the inputs and the pure assembly of the generated item. -/
theorem analyze_ok_inv (f : ItemFn) (a : LuaFnAttrs) (d : LuaFnDef)
    (h : analyze_lua_fn f a = Except.ok d) :
    ∃ ws, classify_args f.sig.inputs = Except.ok ws ∧ d = mk_lua_fn_def f ws := by
  unfold analyze_lua_fn at h
  by_cases hg : f.sig.generics_params.length > 0
  · rw [if_pos hg] at h; cases h
  · rw [if_neg hg] at h
    by_cases hasync : f.sig.asyncness = true
    · rw [if_pos hasync] at h; cases h
    · rw [if_neg hasync] at h
      cases hc : classify_args f.sig.inputs with
      | error e => rw [hc] at h; cases h
      | ok ws =>
        rw [hc] at h
        cases h
        exact ⟨ws, rfl, rfl⟩

/-- A classified argument's wrapper slot type is determined by the shape of
its declared type. -/
theorem classify_arg_slot (input : FnArg) (w : WrapperArg)
    (h : classify_arg input = Except.ok w) (p : Pat) (ty : Ty)
    (he : input = FnArg.typed p ty) :
    ((∃ m e, ty = Ty.reference m e) → wrapper_slot_ty w = WrapperTy.anyUserData) ∧
    ((∀ m e, ty ≠ Ty.reference m e) → wrapper_slot_ty w = WrapperTy.native ty) := by
  subst he
  cases p with
  | other r => simp [classify_arg] at h
  | ident n =>
    cases ty with
    | reference m elem =>
      simp only [classify_arg] at h
      cases h
      refine ⟨fun _ => ?_, fun hne => absurd rfl (hne m elem)⟩
      cases m <;> rfl
    | path segs =>
      simp only [classify_arg] at h
      cases h
      refine ⟨?_, fun _ => rfl⟩
      rintro ⟨m, e, hx⟩
      cases hx
    | unit =>
      simp only [classify_arg] at h
      cases h
      refine ⟨?_, fun _ => rfl⟩
      rintro ⟨m, e, hx⟩
      cases hx
    | other r =>
      simp only [classify_arg] at h
      cases h
      refine ⟨?_, fun _ => rfl⟩
      rintro ⟨m, e, hx⟩
      cases hx

/-- An argument list containing a receiver never classifies. -/
theorem classify_args_receiver :
    ∀ inputs : List FnArg, FnArg.receiver ∈ inputs →
      ∃ e, classify_args inputs = Except.error e := by
  intro inputs
  induction inputs with
  | nil => intro h; cases h
  | cons a rest ih =>
    intro h
    rcases List.mem_cons.mp h with h1 | h2
    · subst h1
      exact ⟨GenError.synError "Can't use self here.", rfl⟩
    · cases ha : classify_arg a with
      | error e => exact ⟨e, by simp [classify_args, ha]⟩
      | ok w =>
        obtain ⟨e, he⟩ := ih h2
        exact ⟨e, by simp [classify_args, ha, he]⟩

/-- An argument list of identifier-pattern typed arguments always
classifies. -/
theorem classify_args_total :
    ∀ inputs : List FnArg,
      (∀ arg ∈ inputs, ∃ n ty, arg = FnArg.typed (Pat.ident n) ty) →
      ∃ ws, classify_args inputs = Except.ok ws := by
  intro inputs
  induction inputs with
  | nil => intro _; exact ⟨[], rfl⟩
  | cons a rest ih =>
    intro h
    obtain ⟨n, ty, ha⟩ := h a (List.mem_cons_self a rest)
    subst ha
    have hok : ∃ w, classify_arg (FnArg.typed (Pat.ident n) ty) = Except.ok w := by
      cases ty with
      | reference m elem => exact ⟨_, rfl⟩
      | path segs => exact ⟨_, rfl⟩
      | unit => exact ⟨_, rfl⟩
      | other r => exact ⟨_, rfl⟩
    obtain ⟨w, hw⟩ := hok
    obtain ⟨ws, hws⟩ := ih (fun arg harg => h arg (List.mem_cons_of_mem _ harg))
    exact ⟨w :: ws, by simp [classify_args, hw, hws]⟩

/-- Claim C4: a generic declaration, an async declaration, and a
declaration with a receiver parameter are each rejected by the analyzer at
generation time — the analysis returns an error and produces no generated
item. -/
theorem rejects_generic_async_receiver (f : ItemFn) (a : LuaFnAttrs) :
    (0 < f.sig.generics_params.length →
      analyze_lua_fn f a =
        Except.error
          (GenError.synError "Functions exported to lua can't have generic parameters.")) ∧
    (f.sig.generics_params = [] → f.sig.asyncness = true →
      analyze_lua_fn f a =
        Except.error
          (GenError.synError "Functions exported to lua can't be marked async.")) ∧
    (f.sig.generics_params = [] → f.sig.asyncness = false →
      FnArg.receiver ∈ f.sig.inputs →
      ∃ e, analyze_lua_fn f a = Except.error e) := by
  refine ⟨?_, ?_, ?_⟩
  · intro hg
    unfold analyze_lua_fn
    rw [if_pos hg]
  · intro hg hasync
    unfold analyze_lua_fn
    rw [if_neg (by simp [hg]), if_pos hasync]
  · intro hg hasync hrec
    obtain ⟨e, he⟩ := classify_args_receiver f.sig.inputs hrec
    refine ⟨e, ?_⟩
    unfold analyze_lua_fn
    rw [if_neg (by simp [hg]), if_neg (by simp [hasync]), he]

/-- Claim C4 witness: a declaration with one generic parameter is rejected
with the dedicated error. -/
theorem rejects_generic_async_receiver_witness :
    analyze_lua_fn genericFn { under := none } =
      Except.error
        (GenError.synError "Functions exported to lua can't have generic parameters.") :=
  (rejects_generic_async_receiver genericFn { under := none }).1 (by decide)

/-- Claim C5: the access mode is derived structurally from the declared
type — a shared reference yields `Ref` with the pointee recorded, a mutable
reference yields `RefMut` with the pointee recorded, and any non-reference
type yields `Owned` with the type kept verbatim. -/
theorem access_mode_classification (n : String) (ty elem : Ty) :
    (classify_arg (FnArg.typed (Pat.ident n) (Ty.reference false elem)) =
      Except.ok { kind := ArgKind.ref, typ := elem, name := n }) ∧
    (classify_arg (FnArg.typed (Pat.ident n) (Ty.reference true elem)) =
      Except.ok { kind := ArgKind.refMut, typ := elem, name := n }) ∧
    ((∀ m e, ty ≠ Ty.reference m e) →
      classify_arg (FnArg.typed (Pat.ident n) ty) =
        Except.ok { kind := ArgKind.owned, typ := ty, name := n }) := by
  refine ⟨rfl, rfl, ?_⟩
  intro hne
  cases ty with
  | reference m e => exact absurd rfl (hne m e)
  | path segs => rfl
  | unit => rfl
  | other r => rfl

/-- Claim C5 witness: a plain `i32` parameter is classified `Owned` with
its type kept verbatim. -/
theorem access_mode_classification_witness :
    classify_arg (FnArg.typed (Pat.ident "x") i32Ty) =
      Except.ok { kind := ArgKind.owned, typ := i32Ty, name := "x" } :=
  (access_mode_classification "x" i32Ty Ty.unit).2.2 (fun m e h => by cases h)

/-- Claim C6: for every accepted declaration, the generated wrapper's
signature has exactly one slot per original parameter, in order; an
original non-reference (owned) parameter keeps its declared type, while a
reference parameter's slot type is the opaque `mlua::AnyUserData` handle
type. -/
theorem wrapper_signature_shape (f : ItemFn) (a : LuaFnAttrs) (d : LuaFnDef)
    (h : analyze_lua_fn f a = Except.ok d) :
    d.register_fn_item.inner.arg_types.length = f.sig.inputs.length ∧
    List.Forall₂
      (fun (input : FnArg) (wty : WrapperTy) =>
        ∀ p ty, input = FnArg.typed p ty →
          ((∃ m e, ty = Ty.reference m e) → wty = WrapperTy.anyUserData) ∧
          ((∀ m e, ty ≠ Ty.reference m e) → wty = WrapperTy.native ty))
      f.sig.inputs d.register_fn_item.inner.arg_types := by
  obtain ⟨ws, hc, hd⟩ := analyze_ok_inv f a d h
  subst hd
  have h2 := classify_args_forall2 f.sig.inputs ws hc
  constructor
  · simp only [mk_lua_fn_def, List.length_map]
    exact h2.length_eq.symm
  · simp only [mk_lua_fn_def]
    rw [List.forall₂_map_right_iff]
    refine h2.imp ?_
    intro input w hw p ty he
    exact classify_arg_slot input w hw p ty he

/-- Claim C6 witness: the test function's wrapper has one slot, of the
opaque handle type, for its single `&mut HalfEdgeMesh` parameter. -/
theorem wrapper_signature_shape_witness :
    test_def.register_fn_item.inner.arg_types.length =
      test_exported_fn.sig.inputs.length :=
  (wrapper_signature_shape test_exported_fn opsAttrs test_def rfl).1

/-- Claim C7: the return shape is classified structurally — a missing
return type yields the unit marker and non-fallible; a return type matching
the `Result` wrapper shape yields its success payload and fallible; any
return type the `Result` detector does not match is recorded verbatim and
non-fallible; and the analyzed descriptor records exactly this shape. -/
theorem return_shape_classification :
    (ret_shape none = (Ty.unit, false)) ∧
    (∀ (t : Ty) (rest : List GenArg) (segs : List PathSeg),
      ret_shape (some (Ty.path
          (PathSeg.mk "Result" (PathArguments.angleBracketed (GenArg.tyArg t :: rest))
            :: segs)))
        = (t, true)) ∧
    (∀ ty : Ty, unwrap_result ty = none → ret_shape (some ty) = (ty, false)) ∧
    (∀ (f : ItemFn) (a : LuaFnAttrs) (d : LuaFnDef),
      analyze_lua_fn f a = Except.ok d →
      d.register_fn_item.inner.ret_typ = (ret_shape f.sig.output).1 ∧
      d.register_fn_item.inner.ret_is_result = (ret_shape f.sig.output).2) := by
  refine ⟨rfl, ?_, ?_, ?_⟩
  · intro t rest segs
    simp [ret_shape, unwrap_result]
  · intro ty hnone
    simp [ret_shape, hnone]
  · intro f a d h
    obtain ⟨ws, _, hd⟩ := analyze_ok_inv f a d h
    subst hd
    exact ⟨rfl, rfl⟩

/-- Claim C7 witness: the test function's `Result<i32>` return type is
detected as fallible with payload `i32`, and its descriptor records that. -/
theorem return_shape_classification_witness :
    ret_shape (some resultI32Ty) = (i32Ty, true) ∧
    test_def.register_fn_item.inner.ret_typ = (ret_shape test_exported_fn.sig.output).1 :=
  ⟨return_shape_classification.2.1 i32Ty [] [],
   (return_shape_classification.2.2.2 test_exported_fn opsAttrs test_def rfl).1⟩

/-- Claim C1 (evidence of the divergence): for the crate's own test
function annotated `under = "Foo"`, analysis succeeds, but the generated
registration targets the hardcoded table name `"Ops"` — the parsed `under`
value is never consulted — so running the registration against a runtime
that has a `"Foo"` table but no `"Ops"` table aborts instead of inserting
the wrapper into `"Foo"`. -/
theorem under_value_ignored_by_registration :
    analyze_lua_fn test_exported_fn fooAttrs = Except.ok test_def ∧
    test_def.register_fn_item.table_name = "Ops" ∧
    run_register_fn test_def { globals := [("Foo", [])] } = none :=
  ⟨rfl, rfl, rfl⟩

/-- Claim C2 (evidence of the divergence): when the destination table
`"Ops"` does not exist in the runtime, the generated registration function
aborts (the `.unwrap()` at line 191 panics) instead of creating the table
on demand; with the table present, registration inserts the wrapper keyed
by the original function's name. -/
theorem missing_table_aborts_registration :
    run_register_fn test_def { globals := [] } = none ∧
    run_register_fn test_def { globals := [("Ops", [])] } =
      some { globals := [("Ops", [("test_exported_fn", test_def.register_fn_item.inner)])] } :=
  ⟨rfl, rfl⟩

/-- A successful scan collects exactly one parsed config per `lua`
attribute. -/
theorem scan_lua_attrs_length :
    ∀ (attrs : List Attribute) (i : Nat) (ls : List LuaFnAttrs) (idxs : List Nat),
      scan_lua_attrs i attrs = Except.ok (ls, idxs) →
      ls.length = count_lua_attrs attrs := by
  intro attrs
  induction attrs with
  | nil =>
    intro i ls idxs h
    simp only [scan_lua_attrs] at h
    cases h
    rfl
  | cons attr rest ih =>
    intro i ls idxs h
    simp only [scan_lua_attrs] at h
    by_cases hl : attr.pathIdent = some "lua"
    · rw [if_pos hl] at h
      cases hp : parse_lua_fn_attrs attr.args with
      | error e => rw [hp] at h; cases h
      | ok la =>
        rw [hp] at h
        cases hs : scan_lua_attrs (i + 1) rest with
        | error e => rw [hs] at h; cases h
        | ok p =>
          obtain ⟨ls2, idxs2⟩ := p
          rw [hs] at h
          cases h
          have := ih (i + 1) ls2 idxs2 hs
          simp [count_lua_attrs, hl, this]
          omega
    · rw [if_neg hl] at h
      have := ih (i + 1) ls idxs h
      simp [count_lua_attrs, hl, this]

/-- Claim C9: a declaration carrying the `lua` annotation more than once
makes attribute collection abort, and a module whose content contains such
a declaration produces a generation-time error with no emitted output. -/
theorem double_lua_annotation_fatal (attrs : List Attribute)
    (h : 2 ≤ count_lua_attrs attrs) :
    (∃ e, collect_lua_attr attrs = Except.error e) ∧
    (∀ (vis mid : String) (f : ItemFn) (items : List Item), f.attrs = attrs →
      ∃ e, blackjack_lua_module2
          { vis := vis, ident := mid, content := some (Item.fn f :: items) }
        = Except.error e) := by
  have h1 : ∃ e, collect_lua_attr attrs = Except.error e := by
    cases hs : scan_lua_attrs 0 attrs with
    | error e => exact ⟨e, by simp [collect_lua_attr, hs]⟩
    | ok p =>
      obtain ⟨ls, idxs⟩ := p
      have hlen : ls.length = count_lua_attrs attrs := scan_lua_attrs_length attrs 0 ls idxs hs
      cases hr : remove_indices attrs idxs with
      | error e => exact ⟨e, by simp [collect_lua_attr, hs, hr]⟩
      | ok attrs2 =>
        refine ⟨GenError.panicked "Only one #[lua(...)] annotation is supported per function.", ?_⟩
        simp only [collect_lua_attr, hs, hr]
        rw [if_pos (by omega)]
  refine ⟨h1, ?_⟩
  intro vis mid f items hf
  obtain ⟨e, he⟩ := h1
  refine ⟨e, ?_⟩
  simp [blackjack_lua_module2, process_items, hf, he]

/-- Claim C9 witness: the test attribute vector carrying `#[lua(...)]`
twice makes both collection and whole-module generation fail. -/
theorem double_lua_annotation_fatal_witness :
    ∃ e, collect_lua_attr luaAttrTwice = Except.error e :=
  (double_lua_annotation_fatal luaAttrTwice (by decide)).1

/-- Claim C10: every accepted parameter must carry a plain identifier
pattern — a non-identifier pattern aborts generation with the `todo!()`
panic (not a descriptive error), also when it is the declaration's first
parameter; and under the all-identifier-patterns precondition (with no
generics, no async, no receiver) the analyzer always succeeds. -/
theorem ident_pattern_precondition :
    (∀ (r : String) (ty : Ty),
      classify_arg (FnArg.typed (Pat.other r) ty) =
        Except.error (GenError.panicked "not yet implemented")) ∧
    (∀ (f : ItemFn) (a : LuaFnAttrs) (r : String) (ty : Ty) (rest : List FnArg),
      f.sig.generics_params = [] → f.sig.asyncness = false →
      f.sig.inputs = FnArg.typed (Pat.other r) ty :: rest →
      analyze_lua_fn f a = Except.error (GenError.panicked "not yet implemented")) ∧
    (∀ (f : ItemFn) (a : LuaFnAttrs),
      f.sig.generics_params = [] → f.sig.asyncness = false →
      (∀ arg ∈ f.sig.inputs, ∃ n ty, arg = FnArg.typed (Pat.ident n) ty) →
      ∃ d, analyze_lua_fn f a = Except.ok d) := by
  refine ⟨fun r ty => rfl, ?_, ?_⟩
  · intro f a r ty rest hg hasync hinputs
    unfold analyze_lua_fn
    rw [if_neg (by simp [hg]), if_neg (by simp [hasync]), hinputs]
    rfl
  · intro f a hg hasync hpat
    obtain ⟨ws, hws⟩ := classify_args_total f.sig.inputs hpat
    refine ⟨mk_lua_fn_def f ws, ?_⟩
    unfold analyze_lua_fn
    rw [if_neg (by simp [hg]), if_neg (by simp [hasync]), hws]

/-- Claim C10 witness: a declaration whose only parameter is
wildcard-patterned aborts with the panic, while the all-identifier test
function is accepted. -/
theorem ident_pattern_precondition_witness :
    analyze_lua_fn wildcardFn { under := none } =
      Except.error (GenError.panicked "not yet implemented") ∧
    ∃ d, analyze_lua_fn test_exported_fn { under := none } = Except.ok d :=
  ⟨ident_pattern_precondition.2.1 wildcardFn { under := none } "_" i32Ty [] rfl rfl rfl,
   ident_pattern_precondition.2.2 test_exported_fn { under := none } rfl rfl
     (by
       intro arg harg
       have : arg = FnArg.typed (Pat.ident "mesh") (Ty.reference true meshTy) := by
         simpa [test_exported_fn] using harg
       exact ⟨"mesh", Ty.reference true meshTy, this⟩)⟩

end Blackjack
